import Mathlib

/-!
Shallow embedding of the admission-workflow core of the repository:
the application data model (`workflow.py`), the five stage handlers
(`agents/document_checker.py`, `agents/shortlisting_agent.py`,
`agents/student_counselor.py`, `agents/loan_agent.py`,
`agents/admission_officer.py`) and the LangGraph workflow driver
(`workflow.py: create_admission_workflow / process_application`).

Modelling conventions:
* statuses are strings, as in the source; the pydantic `Literal`
  validation of the 11-value status set is `mkApplicationStatus`;
* the external vector-store lookups and the `random` draws inside the
  handlers are explicit fields of an `Externals` record threaded to every
  handler (`none` for a lookup means the search returned nothing and the
  handler falls back to its documented default);
* the `re.search`-based numeric scrapes are modelled by a first-match
  scanner over the character list (`searchRunAfter`), with Python's
  `float` / `int` conversions as `parseDecimal` / comma-stripping;
* the long letter/notification prose of the fallback templates is
  abbreviated to its parameters: no verified property inspects the prose,
  and the surrounding structure (template lookup, placeholder
  substitution, which fields feed the text) is kept;
* Python floats are modelled as `Frac` (exact rationals in lowest terms;
  all arithmetic the handlers do on these values is exact decimal
  arithmetic), `int(x)` on a nonnegative value as `Frac.floor`.
-/

/-! ### Exact rationals
All values every operation below produces are in lowest terms with a
positive denominator, so the derived structural equality is the equality
of rationals on them. -/

/-- An exact rational number: numerator and (positive) denominator. -/
structure Frac where
  num : Int
  den : Nat
deriving DecidableEq

/-- `n / d` reduced to lowest terms (`d = 0` never arises in use). -/
def Frac.norm (n : Int) (d : Nat) : Frac :=
  if d = 0 then ⟨0, 1⟩
  else
    let g := Nat.gcd n.natAbs d
    ⟨n / (g : Int), d / g⟩

def Frac.add (a b : Frac) : Frac :=
  Frac.norm (a.num * b.den + b.num * a.den) (a.den * b.den)

def Frac.mul (a b : Frac) : Frac := Frac.norm (a.num * b.num) (a.den * b.den)

def Frac.inv (a : Frac) : Frac :=
  if a.num = 0 then ⟨0, 1⟩
  else if a.num < 0 then ⟨-(a.den : Int), a.num.natAbs⟩
  else ⟨(a.den : Int), a.num.natAbs⟩

def Frac.div (a b : Frac) : Frac := a.mul b.inv

instance : OfNat Frac n := ⟨⟨n, 1⟩⟩

instance : NatCast Frac := ⟨fun n => ⟨n, 1⟩⟩

instance : IntCast Frac := ⟨fun n => ⟨n, 1⟩⟩

instance : Add Frac := ⟨Frac.add⟩

instance : Mul Frac := ⟨Frac.mul⟩

instance : Div Frac := ⟨Frac.div⟩

/-- Decimal literals such as `0.75`. -/
instance : OfScientific Frac :=
  ⟨fun m b e => if b then Frac.norm m (10 ^ e) else ⟨(m : Int) * 10 ^ e, 1⟩⟩

def Frac.ble (a b : Frac) : Bool := a.num * b.den ≤ b.num * a.den

def Frac.blt (a b : Frac) : Bool := a.num * b.den < b.num * a.den

instance : LE Frac := ⟨fun a b => a.ble b = true⟩

instance : LT Frac := ⟨fun a b => a.blt b = true⟩

instance (a b : Frac) : Decidable (a ≤ b) := inferInstanceAs (Decidable (_ = true))

instance (a b : Frac) : Decidable (a < b) := inferInstanceAs (Decidable (_ = true))

/-- Mathematical floor; equals Python `int()` on nonnegative values. -/
def Frac.floor (a : Frac) : Int := Int.fdiv a.num a.den

def Frac.pow (a : Frac) : Nat → Frac
  | 0 => 1
  | n + 1 => a.mul (a.pow n)

instance : HPow Frac Nat Frac := ⟨Frac.pow⟩

/-! ### Regex-scrape scanner -/

/-- Does the pattern match at the head of the text? -/
def matchesAt : List Char → List Char → Bool
  | [], _ => true
  | _ :: _, [] => false
  | p :: ps, c :: cs => p == c && matchesAt ps cs

/-- First-match scan for `pat` + (optional whitespace when `skipWs`) + a
nonempty run of characters of class `cls`, optionally followed by the
literal `trailing`; returns the run.  Models `re.search` with patterns of
the shapes used in the source (for example `GPA:\s*([\d.]+)`,
`minimum GPA of ([\d.]+)`, `interest rate of ([\d.]+)%`). -/
def searchRunAfter (skipWs : Bool) (cls : Char → Bool) (pat trailing : List Char) :
    List Char → Option (List Char)
  | [] => none
  | c :: cs =>
    if matchesAt pat (c :: cs) then
      let rest := (c :: cs).drop pat.length
      let rest := if skipWs then rest.dropWhile Char.isWhitespace else rest
      let run := rest.takeWhile cls
      if run.isEmpty || !matchesAt trailing (rest.drop run.length) then
        searchRunAfter skipWs cls pat trailing cs
      else some run
    else searchRunAfter skipWs cls pat trailing cs

def isDigitOrDot (c : Char) : Bool := c.isDigit || c == '.'

def isDigitOrComma (c : Char) : Bool := c.isDigit || c == ','

def natOfDigits (cs : List Char) : Nat :=
  cs.foldl (fun n c => n * 10 + (c.toNat - 48)) 0

/-- Split a character list at the dots. -/
def splitDot : List Char → List (List Char)
  | [] => [[]]
  | c :: cs =>
    let r := splitDot cs
    if c == '.' then [] :: r
    else
      match r with
      | [] => [[c]]
      | g :: gs => (c :: g) :: gs

/-- Python `float` on a string drawn from the class `[\d.]+`: at most one
dot and at least one digit.  Strings Python `float` would raise on (more
than one dot, a lone dot) give `none`. -/
def parseDecimal (cs : List Char) : Option Frac :=
  match splitDot cs with
  | [ip] => if ip.isEmpty then none else some ((natOfDigits ip : Int) : Frac)
  | [ip, fp] =>
    if ip.isEmpty && fp.isEmpty then none
    else some ((natOfDigits ip : Frac) + (natOfDigits fp : Frac) / ((10 : Frac) ^ fp.length))
  | _ => none

/-- `float(...)` of the first `([\d.]+)` group after the literal `pat`
(with `\s*` in between when `skipWs`). -/
def extractNumberAfter (skipWs : Bool) (pat text : String) : Option Frac :=
  (searchRunAfter skipWs isDigitOrDot pat.data [] text.data).bind parseDecimal

/-- As `extractNumberAfter` but the number must be followed by the literal
`trailing` (the `interest rate of ([\d.]+)%` pattern). -/
def extractNumberBefore (pat trailing text : String) : Option Frac :=
  (searchRunAfter false isDigitOrDot pat.data trailing.data text.data).bind parseDecimal

/-- `int(group.replace(",", ""))` of the first `([\d,]+)` group after the
literal `pat` (the dollar-amount patterns). -/
def extractCommaInt (pat text : String) : Option Int :=
  (searchRunAfter false isDigitOrComma pat.data [] text.data).map
    (fun run => (natOfDigits (run.filter (fun c => c != ',')) : Int))

/-- Python `needle in haystack` on strings (substring test). -/
def containsStr (haystack needle : String) : Bool :=
  go needle.data haystack.data
where
  go (pat : List Char) : List Char → Bool
    | [] => matchesAt pat []
    | c :: cs => matchesAt pat (c :: cs) || go pat cs

/-! ### Data model (`workflow.py`) -/

/-- One entry of `ApplicationStatus.communications`:
`{type, subject, content, timestamp}`. -/
structure Communication where
  type : String
  subject : String
  content : String
  timestamp : String
deriving DecidableEq

/-- One entry of the workflow `history` list.  The Python entries are
dicts with `agent`, `action` and stage-specific extra keys; the extra
keys are optional fields here, `none` when the source entry lacks them. -/
structure HistoryEntry where
  agent : String
  action : String
  reason : Option String := none
  result : Option String := none
  notes : Option String := none
  amount : Option Int := none
  loan_amount : Option Int := none
  rank_score : Option Frac := none
  reasons : Option (List (Option String)) := none
deriving DecidableEq

/-- `loan_details` as written by `LoanAgent.calculate_eligibility`. -/
structure LoanDetails where
  eligible : Bool
  loan_amount : Int
  family_income : Int
  credit_score : Int
  interest_rate : Frac
  repayment_period_years : Int
  reasons : List (Option String)
deriving DecidableEq

/-- `payment_details` as written by `AdmissionOfficer.process`. -/
structure PaymentDetails where
  amount_paid : Int
  payment_method : String
  payment_date : String
  transaction_id : String
deriving DecidableEq

/-- The pydantic `ApplicationStatus` model. `documents` is the dict as an
association list; optional fields start as `none` as in the model
defaults. -/
structure ApplicationStatus where
  application_id : String
  student_name : String
  status : String
  documents : List (String × String) := []
  verification_notes : Option String := none
  eligibility_score : Option Frac := none
  shortlisting_notes : Option String := none
  communications : List Communication := []
  loan_details : Option LoanDetails := none
  payment_details : Option PaymentDetails := none
deriving DecidableEq

/-- The 11 values of the `status` `Literal` in `ApplicationStatus`. -/
def validStatuses : List String :=
  ["new", "documents_verified", "documents_rejected",
   "shortlisted", "rejected", "admitted", "awaiting_payment",
   "loan_requested", "loan_approved", "loan_rejected",
   "payment_completed"]

/-- Pydantic construction of `ApplicationStatus`: the `status` field is a
`Literal` of the 11 workflow statuses, so construction with any other
string fails with a validation error. -/
def mkApplicationStatus (application_id student_name status : String)
    (documents : List (String × String)) : Except String ApplicationStatus :=
  if status ∈ validStatuses then
    .ok { application_id := application_id, student_name := student_name,
          status := status, documents := documents }
  else .error "ValidationError: status"

/-- The caller-supplied `context` dict; only the two keys the handlers
read (`program`, `loan_requested`) are modelled, `none` = key absent. -/
structure Context where
  program : Option String := none
  loan_requested : Option Bool := none
deriving DecidableEq

/-- The LangGraph `AdmissionState` TypedDict. -/
structure AdmissionState where
  application : ApplicationStatus
  current_agent : String
  history : List HistoryEntry
  context : Context
deriving DecidableEq

/-- External inputs consumed by the handlers: the results of the
vector-store searches (`none` = the search returned nothing, and the
handler falls back to its documented default) together with the values
produced by the `random` draws inside the handlers, made explicit.
The capacity scrape (`re.findall` over the capacity text) is represented
by its result, an injected `(program, capacity)` override list. -/
structure Externals where
  eligibility_info : Option String := none
  capacity_overrides : List (String × Int) := []
  loan_policy_info : Option String := none
  admission_letter_template : Option String := none
  fee_slip_template : Option String := none
  fee_info : Option String := none
  shortlist_template : Option String := none
  loan_info_text : Option String := none
  loan_approval_template : Option String := none
  family_income : Int := 0
  credit_score : Int := 0
  current_enrollment : String → Int := fun _ => 0
  rank_random_factor : Frac := 0

/-- Decimal-free rendering of a `Frac` used where the source interpolates
a float into a message; deterministic, numeral shape abbreviated. -/
def ratStr (r : Frac) : String := toString r.num ++ "/" ++ toString r.den

def optRatStr : Option Frac → String
  | none => "None"
  | some r => ratStr r

/-! ### Document Checker (`agents/document_checker.py`) -/

def DocumentChecker.name : String := "Document Checker"

def required_documents : List String :=
  ["application_form", "academic_transcripts", "id_passport",
   "recommendation_letters", "statement_of_purpose"]

/-- `DocumentChecker.check_document_completeness`. -/
def check_document_completeness (documents : List (String × String)) :
    List (String × Bool) :=
  required_documents.map (fun d => (d, documents.any (fun kv => kv.1 == d)))

/-- Result dict of `validate_academic_credentials`. -/
structure CredentialsResult where
  gpa : Option Frac
  min_gpa_required : Frac
  is_valid : Bool
deriving DecidableEq

/-- `DocumentChecker.validate_academic_credentials`: scrape the GPA from
the transcript text, scrape the minimum GPA from the eligibility lookup
(default 3.0), compare. -/
def validate_academic_credentials (transcript_text : String)
    (eligibility_info : Option String) : CredentialsResult :=
  let gpa := extractNumberAfter true "GPA:" transcript_text
  let min_gpa_required : Frac :=
    match eligibility_info with
    | none => 3
    | some txt => (extractNumberAfter false "minimum GPA of " txt).getD 3
  { gpa := gpa,
    min_gpa_required := min_gpa_required,
    is_valid := match gpa with
                | none => false
                | some g => decide (min_gpa_required ≤ g) }

/-- The hardcoded simulated transcript in `DocumentChecker.process`. -/
def transcript_text : String :=
  "Student Academic Record\nGPA: 3.5\nMajor: Computer Science"

/-- `DocumentChecker.process`.  Note: the handler has no status guard in
the source; it processes the state it is given whatever the status. -/
def DocumentChecker.process (ext : Externals) (state : AdmissionState) :
    AdmissionState :=
  let application := state.application
  let completeness := check_document_completeness application.documents
  let all_documents_present := completeness.all (fun p => p.2)
  if !all_documents_present then
    let missing_docs := (completeness.filter (fun p => !p.2)).map (fun p => p.1)
    let verification_notes :=
      "Missing documents: " ++ String.intercalate ", " missing_docs
    { state with
      application :=
        { application with
          status := "documents_rejected",
          verification_notes := some verification_notes },
      history := state.history ++
        [{ agent := DocumentChecker.name, action := "document_rejection",
           reason := some verification_notes }] }
  else
    let credentials_result :=
      validate_academic_credentials transcript_text ext.eligibility_info
    if !credentials_result.is_valid then
      let verification_notes :=
        "Academic credentials do not meet requirements. GPA: " ++
          optRatStr credentials_result.gpa ++ ", Required GPA: " ++
          ratStr credentials_result.min_gpa_required
      { state with
        application :=
          { application with
            status := "documents_rejected",
            verification_notes := some verification_notes },
        history := state.history ++
          [{ agent := DocumentChecker.name, action := "document_rejection",
             reason := some verification_notes }] }
    else
      let verification_notes := "All documents verified successfully."
      { state with
        application :=
          { application with
            status := "documents_verified",
            verification_notes := some verification_notes,
            eligibility_score := credentials_result.gpa },
        current_agent := "shortlisting_agent",
        history := state.history ++
          [{ agent := DocumentChecker.name, action := "document_verification",
             result := some "success", notes := some verification_notes }] }

/-! ### Shortlisting Agent (`agents/shortlisting_agent.py`) -/

def ShortlistingAgent.name : String := "Shortlisting Agent"

/-- The part of `get_eligibility_criteria` the handler reads
(`min_gpa`; the `required_documents` / `additional_requirements` entries
of the criteria dict are never consulted by `process`). -/
def get_eligibility_criteria_min_gpa (ext : Externals) : Frac :=
  match ext.eligibility_info with
  | none => 3
  | some txt => (extractNumberAfter false "minimum GPA of " txt).getD 3

/-- Default program capacities in `get_program_capacity`. -/
def default_capacities : List (String × Int) :=
  [("Computer Science", 100), ("Business Administration", 150),
   ("Engineering", 120), ("Medicine", 80), ("Arts and Humanities", 200)]

/-- Dict update `d[k] = v` on an association list. -/
def dictInsert (l : List (String × Int)) (k : String) (v : Int) :
    List (String × Int) :=
  if l.any (fun p => p.1 == k) then
    l.map (fun p => if p.1 == k then (k, v) else p)
  else l ++ [(k, v)]

def dictGet (l : List (String × Int)) (k : String) : Option Int :=
  (l.find? (fun p => p.1 == k)).map (fun p => p.2)

/-- `get_program_capacity`: the defaults updated by the pairs scraped
from the capacity lookup text (the scrape represented by its result,
`ext.capacity_overrides`). -/
def get_program_capacity (ext : Externals) : List (String × Int) :=
  ext.capacity_overrides.foldl (fun acc pc => dictInsert acc pc.1 pc.2)
    default_capacities

/-- `check_program_availability`: false when the program is not in the
capacity dict, else the simulated current enrollment (the
`random.randint(0, capacity)` draw, injected as
`ext.current_enrollment`) must be strictly below capacity. -/
def check_program_availability (ext : Externals) (program : String) : Bool :=
  match dictGet (get_program_capacity ext) program with
  | none => false
  | some cap => ext.current_enrollment program < cap

/-- `rank_application`: eligibility score (`or 0`), plus 0.5 when the
verification notes mention success, plus the `random.uniform(-0.2, 0.2)`
draw (injected as `ext.rank_random_factor`). -/
def rank_application (ext : Externals) (application : ApplicationStatus) : Frac :=
  let base_score := application.eligibility_score.getD 0
  let base_score :=
    match application.verification_notes with
    | some n => if containsStr n "success" then base_score + 0.5 else base_score
    | none => base_score
  base_score + ext.rank_random_factor

/-- `ShortlistingAgent.process`.  A `documents_verified` application
always carries an eligibility score (set by the Document Checker); on a
hand-built state without one the comparison reads 0 (Python would raise
on `None < float`, an unreachable state in engine runs). -/
def ShortlistingAgent.process (ext : Externals) (state : AdmissionState) :
    AdmissionState :=
  let application := state.application
  if application.status ≠ "documents_verified" then state
  else
    let min_gpa := get_eligibility_criteria_min_gpa ext
    if application.eligibility_score.getD 0 < min_gpa then
      let shortlisting_notes :=
        "Application rejected: Eligibility score (" ++
          optRatStr application.eligibility_score ++
          ") below minimum requirement (" ++ ratStr min_gpa ++ ")"
      { state with
        application :=
          { application with
            status := "rejected", shortlisting_notes := some shortlisting_notes },
        history := state.history ++
          [{ agent := ShortlistingAgent.name, action := "application_rejection",
             reason := some shortlisting_notes }] }
    else
      let program := state.context.program.getD "Computer Science"
      if !check_program_availability ext program then
        let shortlisting_notes :=
          "Application rejected: No capacity available in the " ++ program ++
            " program"
        { state with
          application :=
            { application with
              status := "rejected", shortlisting_notes := some shortlisting_notes },
          history := state.history ++
            [{ agent := ShortlistingAgent.name, action := "application_rejection",
               reason := some shortlisting_notes }] }
      else
        let rank_score := rank_application ext application
        let shortlisting_notes :=
          "Application shortlisted with rank score: " ++ ratStr rank_score
        { state with
          application :=
            { application with
              status := "shortlisted", shortlisting_notes := some shortlisting_notes },
          current_agent := "student_counselor",
          history := state.history ++
            [{ agent := ShortlistingAgent.name, action := "application_shortlisting",
               rank_score := some rank_score, notes := some shortlisting_notes }] }

/-! ### Student Counselor (`agents/student_counselor.py`) -/

def StudentCounselor.name : String := "Student Counselor"

/-- `generate_shortlist_notification`: knowledge-base template with
placeholders substituted, else the built-in fallback (prose abbreviated
to its parameters; no verified property inspects the prose). -/
def generate_shortlist_notification (ext : Externals)
    (student_name program : String) : String :=
  match ext.shortlist_template with
  | some t => (t.replace "[STUDENT_NAME]" student_name).replace "[PROGRAM]" program
  | none =>
    "Dear " ++ student_name ++
      ", you have been shortlisted for the " ++ program ++ " program."

/-- `handle_payment_instructions`: scrape the fee amount from the fee
lookup (default 10000), then the instruction text (prose abbreviated). -/
def handle_payment_instructions (ext : Externals)
    (student_name program : String) : String :=
  let fee_amount : Int :=
    match ext.fee_info with
    | none => 10000
    | some txt => (extractCommaInt "fee amount: $" txt).getD 10000
  "Dear " ++ student_name ++ ", to complete your enrollment in the " ++
    program ++ " program, please pay the admission fee of $" ++
    toString fee_amount ++ "."

/-- `handle_loan_information`: the loan lookup text verbatim when found,
else the built-in fallback (prose abbreviated). -/
def handle_loan_information (ext : Externals) : String :=
  match ext.loan_info_text with
  | some t => t
  | none => "Student Loan Information: loan program details."

/-- `StudentCounselor.process`: guard on `shortlisted`; always append the
shortlist notification; then branch on the `loan_requested` context flag
(default false). -/
def StudentCounselor.process (ext : Externals) (state : AdmissionState) :
    AdmissionState :=
  let application := state.application
  if application.status ≠ "shortlisted" then state
  else
    let program := state.context.program.getD "Computer Science"
    let notification := generate_shortlist_notification ext
      application.student_name program
    let application : ApplicationStatus :=
      { application with
        communications := application.communications ++
          [{ type := "notification", subject := "Application Shortlisted",
             content := notification, timestamp := "2023-05-15T14:30:00Z" }] }
    let loan_requested := state.context.loan_requested.getD false
    if loan_requested then
      let loan_info := handle_loan_information ext
      { state with
        application :=
          { application with
            status := "loan_requested",
            communications := application.communications ++
              [{ type := "information", subject := "Student Loan Information",
                 content := loan_info, timestamp := "2023-05-15T14:35:00Z" }] },
        current_agent := "loan_agent",
        history := state.history ++
          [{ agent := StudentCounselor.name, action := "loan_information_sent",
             notes := some "Student loan information provided" }] }
    else
      let payment_info := handle_payment_instructions ext
        application.student_name program
      { state with
        application :=
          { application with
            status := "awaiting_payment",
            communications := application.communications ++
              [{ type := "instruction", subject := "Payment Instructions",
                 content := payment_info, timestamp := "2023-05-15T14:32:00Z" }] },
        current_agent := "admission_officer",
        history := state.history ++
          [{ agent := StudentCounselor.name, action := "payment_instructions_sent",
             notes := some "Payment instructions sent to student" }] }

/-! ### Loan Agent (`agents/loan_agent.py`) -/

def LoanAgent.name : String := "Loan Agent"

/-- The loan-policy dict of `get_loan_policies`. -/
structure LoanPolicies where
  max_loan_amount : Int
  interest_rate : Frac
  repayment_period_years : Int
  grace_period_months : Int
  minimum_income_requirement : Int
  credit_score_requirement : Int
deriving DecidableEq

/-- `get_loan_policies`: documented defaults, with `max_loan_amount` and
`interest_rate` (only those two) scraped from the policy lookup text when
present. -/
def get_loan_policies (ext : Externals) : LoanPolicies :=
  let base : LoanPolicies :=
    { max_loan_amount := 20000, interest_rate := 4,
      repayment_period_years := 10, grace_period_months := 6,
      minimum_income_requirement := 25000, credit_score_requirement := 650 }
  match ext.loan_policy_info with
  | none => base
  | some txt =>
    { base with
      max_loan_amount :=
        (extractCommaInt "maximum loan amount of $" txt).getD base.max_loan_amount,
      interest_rate :=
        (extractNumberBefore "interest rate of " "%" txt).getD base.interest_rate }

/-- `LoanAgent.calculate_eligibility`: the two `random.randint` draws for
family income and credit score are the injected `ext.family_income` and
`ext.credit_score`; eligibility is both thresholds met; the amount is
tiered by income band with Python `int()` truncation of the float
products. -/
def calculate_eligibility (ext : Externals) : LoanDetails :=
  let policies := get_loan_policies ext
  let family_income := ext.family_income
  let credit_score := ext.credit_score
  let eligible :=
    policies.minimum_income_requirement ≤ family_income ∧
      policies.credit_score_requirement ≤ credit_score
  let max_amount := policies.max_loan_amount
  let loan_amount : Int :=
    if eligible then
      if family_income < 40000 then max_amount
      else if family_income < 60000 then ((max_amount : Frac) * 0.75).floor
      else if family_income < 80000 then ((max_amount : Frac) * 0.5).floor
      else ((max_amount : Frac) * 0.25).floor
    else 0
  { eligible := decide eligible,
    loan_amount := loan_amount,
    family_income := family_income,
    credit_score := credit_score,
    interest_rate := policies.interest_rate,
    repayment_period_years := policies.repayment_period_years,
    reasons :=
      if eligible then []
      else
        [if family_income < policies.minimum_income_requirement then
           some "Insufficient family income" else none,
         if credit_score < policies.credit_score_requirement then
           some "Insufficient credit score" else none] }

/-- `generate_loan_approval_letter` (fallback prose abbreviated). -/
def generate_loan_approval_letter (ext : Externals) (student_name : String)
    (loan_details : LoanDetails) : String :=
  match ext.loan_approval_template with
  | some t =>
    (((t.replace "[STUDENT_NAME]" student_name).replace
        "[LOAN_AMOUNT]" ("$" ++ toString loan_details.loan_amount)).replace
      "[INTEREST_RATE]" (ratStr loan_details.interest_rate ++ "%")).replace
      "[REPAYMENT_PERIOD]" (toString loan_details.repayment_period_years ++ " years")
  | none =>
    "Dear " ++ student_name ++
      ", your loan application has been approved. Amount: $" ++
      toString loan_details.loan_amount ++ "."

/-- `generate_loan_rejection_letter`: the `None` placeholders of the
reasons list are filtered out before rendering. -/
def generate_loan_rejection_letter (student_name : String)
    (reasons : List (Option String)) : String :=
  let reasons_list :=
    String.intercalate "\n" ((reasons.filterMap id).map (fun r => "- " ++ r))
  "Dear " ++ student_name ++
    ", your loan application has been rejected. Reasons:\n" ++ reasons_list

/-- `LoanAgent.process`: guard on `loan_requested` (pass-through
otherwise); store `loan_details`; branch on eligibility. -/
def LoanAgent.process (ext : Externals) (state : AdmissionState) :
    AdmissionState :=
  let application := state.application
  if application.status ≠ "loan_requested" then state
  else
    let loan_details := calculate_eligibility ext
    let application : ApplicationStatus :=
      { application with loan_details := some loan_details }
    if loan_details.eligible then
      let approval_letter := generate_loan_approval_letter ext
        application.student_name loan_details
      { state with
        application :=
          { application with
            status := "loan_approved",
            communications := application.communications ++
              [{ type := "letter", subject := "Loan Application Approved",
                 content := approval_letter, timestamp := "2023-05-20T10:15:00Z" }] },
        current_agent := "admission_officer",
        history := state.history ++
          [{ agent := LoanAgent.name, action := "loan_approval",
             loan_amount := some loan_details.loan_amount,
             notes := some "Loan application approved" }] }
    else
      let rejection_letter := generate_loan_rejection_letter
        application.student_name loan_details.reasons
      { state with
        application :=
          { application with
            status := "loan_rejected",
            communications := application.communications ++
              [{ type := "letter", subject := "Loan Application Rejected",
                 content := rejection_letter, timestamp := "2023-05-20T10:15:00Z" }] },
        current_agent := "admission_officer",
        history := state.history ++
          [{ agent := LoanAgent.name, action := "loan_rejection",
             reasons := some loan_details.reasons,
             notes := some "Loan application rejected" }] }

/-! ### Admission Officer (`agents/admission_officer.py`) -/

def AdmissionOfficer.name : String := "Admission Officer"

/-- `generate_admission_letter` (fallback prose abbreviated). -/
def generate_admission_letter (ext : Externals)
    (student_name program : String) : String :=
  match ext.admission_letter_template with
  | some t => (t.replace "[STUDENT_NAME]" student_name).replace "[PROGRAM]" program
  | none =>
    "Dear " ++ student_name ++ ", congratulations, you are admitted to the " ++
      program ++ " program."

/-- `generate_fee_slip`: fee components scraped from the fee lookup text
(defaults 10000 / 500 / 1500), total is their sum; template with
placeholders substituted, else the fallback slip (prose abbreviated;
Python renders the amounts with thousands separators, elided here). -/
def generate_fee_slip (ext : Externals) (student_name program : String) : String :=
  let tuition_fee : Int :=
    match ext.fee_info with
    | none => 10000
    | some txt => (extractCommaInt "tuition fee: $" txt).getD 10000
  let registration_fee : Int :=
    match ext.fee_info with
    | none => 500
    | some txt => (extractCommaInt "registration fee: $" txt).getD 500
  let facility_fee : Int :=
    match ext.fee_info with
    | none => 1500
    | some txt => (extractCommaInt "facility fee: $" txt).getD 1500
  let total_fee := tuition_fee + registration_fee + facility_fee
  match ext.fee_slip_template with
  | some t =>
    (((((t.replace "[STUDENT_NAME]" student_name).replace
          "[PROGRAM]" program).replace
        "[TUITION_FEE]" ("$" ++ toString tuition_fee)).replace
        "[REGISTRATION_FEE]" ("$" ++ toString registration_fee)).replace
        "[FACILITY_FEE]" ("$" ++ toString facility_fee)).replace
      "[TOTAL_FEE]" ("$" ++ toString total_fee)
  | none =>
    "UNIVERSITY FEE SLIP Student: " ++ student_name ++ " Program: " ++
      program ++ " Total Amount Due: $" ++ toString total_fee

/-- The payment record `AdmissionOfficer.process` writes for the
assumed-complete payment. -/
def demoPaymentDetails : PaymentDetails :=
  { amount_paid := 12000, payment_method := "Online",
    payment_date := "2023-05-22T14:30:00Z", transaction_id := "TRX12345678" }

/-- `AdmissionOfficer.finalize_admission`: append the admission letter
and the fee slip to the communications, set status `admitted`. -/
def finalize_admission (ext : Externals) (application : ApplicationStatus)
    (program : String) : ApplicationStatus :=
  let admission_letter := generate_admission_letter ext
    application.student_name program
  let application : ApplicationStatus :=
    { application with
      communications := application.communications ++
        [{ type := "letter", subject := "Admission Letter",
           content := admission_letter, timestamp := "2023-05-25T09:00:00Z" }] }
  let fee_slip := generate_fee_slip ext application.student_name program
  let application : ApplicationStatus :=
    { application with
      communications := application.communications ++
        [{ type := "document", subject := "Fee Slip",
           content := fee_slip, timestamp := "2023-05-25T09:05:00Z" }] }
  { application with status := "admitted" }

/-- The payment-reminder text sent after a loan rejection (prose
abbreviated). -/
def payment_reminder_text (student_name : String) : String :=
  "Dear " ++ student_name ++
    ", your loan application was not approved; you can still secure your admission by making a direct payment."

/-- `AdmissionOfficer.process`: three conditionally evaluated branches,
in source order, each re-reading the status the previous branch may have
written (the cascade): `awaiting_payment` records the assumed payment and
moves to `payment_completed`; `payment_completed`/`loan_approved`
finalizes to `admitted`; `loan_rejected` sends a payment reminder and
reverts to `awaiting_payment`. -/
def AdmissionOfficer.process (ext : Externals) (state : AdmissionState) :
    AdmissionState :=
  let program := state.context.program.getD "Computer Science"
  let state : AdmissionState :=
    if state.application.status = "awaiting_payment" then
      { state with
        application :=
          { state.application with
            payment_details := some demoPaymentDetails,
            status := "payment_completed" },
        history := state.history ++
          [{ agent := AdmissionOfficer.name, action := "payment_received",
             amount := some demoPaymentDetails.amount_paid,
             notes := some "Payment received and processed" }] }
    else state
  let state : AdmissionState :=
    if state.application.status = "payment_completed" ∨
        state.application.status = "loan_approved" then
      { state with
        application := finalize_admission ext state.application program,
        history := state.history ++
          [{ agent := AdmissionOfficer.name, action := "admission_finalized",
             notes := some "Admission letter and fee slip generated" }] }
    else state
  let state : AdmissionState :=
    if state.application.status = "loan_rejected" then
      { state with
        application :=
          { state.application with
            status := "awaiting_payment",
            communications := state.application.communications ++
              [{ type := "letter", subject := "Payment Reminder",
                 content := payment_reminder_text state.application.student_name,
                 timestamp := "2023-05-25T14:00:00Z" }] },
        history := state.history ++
          [{ agent := AdmissionOfficer.name, action := "payment_reminder_sent",
             notes := some "Payment reminder sent after loan rejection" }] }
    else state
  state

/-! ### Workflow graph and engine
(`workflow.py: create_admission_workflow / process_application`) -/

/-- The five nodes added to the `StateGraph`. -/
inductive Node
  | document_checker
  | shortlisting_agent
  | student_counselor
  | loan_agent
  | admission_officer
deriving DecidableEq

/-- Dispatch a node to its handler (`workflow.add_node(...)`). -/
def runNode (ext : Externals) : Node → AdmissionState → AdmissionState
  | .document_checker => DocumentChecker.process ext
  | .shortlisting_agent => ShortlistingAgent.process ext
  | .loan_agent => LoanAgent.process ext
  | .student_counselor => StudentCounselor.process ext
  | .admission_officer => AdmissionOfficer.process ext

/-- The edges of `create_admission_workflow`: the conditional edges out
of the document checker, shortlisting agent and student counselor, the
fixed edge loan agent → admission officer, and the fixed edge admission
officer → END (`none`). -/
def nextNode (n : Node) (state : AdmissionState) : Option Node :=
  match n with
  | .document_checker =>
    if state.application.status = "documents_verified" then
      some .shortlisting_agent
    else none
  | .shortlisting_agent =>
    if state.application.status = "shortlisted" then
      some .student_counselor
    else none
  | .student_counselor =>
    if state.application.status = "loan_requested" then some .loan_agent
    else some .admission_officer
  | .loan_agent => some .admission_officer
  | .admission_officer => none

/-- The LangGraph driver: run the node, follow its (conditional) edge,
repeat until END; `fuel` is the remaining recursion budget, exhausting it
is LangGraph's `GraphRecursionError` (`none`).  The result also carries
the ordered list of node invocations of the run. -/
def runSteps (ext : Externals) : Nat → Node → AdmissionState →
    Option (AdmissionState × List Node)
  | 0, _, _ => none
  | fuel + 1, n, s =>
    let s1 := runNode ext n s
    match nextNode n s1 with
    | none => some (s1, [n])
    | some m => (runSteps ext fuel m s1).map (fun r => (r.1, n :: r.2))

/-- LangGraph's default `recursion_limit`; the repository never
configures one of its own. -/
def recursionLimit : Nat := 25

/-- `workflow_app.invoke(state)`: run from the entry point
(`document_checker`) under the default recursion limit. -/
def invokeWorkflow (ext : Externals) (s : AdmissionState) :
    Option (AdmissionState × List Node) :=
  runSteps ext recursionLimit .document_checker s

/-- The `application_data` argument of `process_application`. -/
structure ApplicationData where
  application_id : String
  student_name : String
  documents : List (String × String) := []
  context : Context := {}

/-- `process_application`: build a fresh `ApplicationStatus` with status
`new` (pydantic construction), wrap it in the initial state, compile and
invoke the workflow. -/
def process_application (ext : Externals) (d : ApplicationData) :
    Except String (AdmissionState × List Node) :=
  match mkApplicationStatus d.application_id d.student_name "new" d.documents with
  | .error e => .error e
  | .ok application =>
    let initial : AdmissionState :=
      { application := application, current_agent := "document_checker",
        history := [], context := d.context }
    match invokeWorkflow ext initial with
    | none => .error "GraphRecursionError"
    | some r => .ok r

/-- Position of a node in the pipeline; every edge of `nextNode` moves
strictly rightward (the graph is acyclic). -/
def nodeRank : Node → Nat
  | .document_checker => 0
  | .shortlisting_agent => 1
  | .student_counselor => 2
  | .loan_agent => 3
  | .admission_officer => 4

/-- The terminal statuses named by the specification. -/
def terminalStatuses : List String := ["documents_rejected", "rejected", "admitted"]

/-! ### Concrete fixtures used by the witnesses and counterexamples -/

/-- A complete document set (contents arbitrary). -/
def docsAll : List (String × String) :=
  [("application_form", "form data"), ("academic_transcripts", "transcript data"),
   ("id_passport", "passport data"), ("recommendation_letters", "letters data"),
   ("statement_of_purpose", "sop data")]

/-- A complete document set with different contents than `docsAll`. -/
def docsAllOther : List (String × String) :=
  [("application_form", "other form"), ("academic_transcripts", "other transcript"),
   ("id_passport", "other passport"), ("recommendation_letters", "other letters"),
   ("statement_of_purpose", "other sop")]

/-- A document set missing `id_passport`. -/
def docsMissingPassport : List (String × String) :=
  [("application_form", "form data"), ("academic_transcripts", "transcript data"),
   ("recommendation_letters", "letters data"), ("statement_of_purpose", "sop data")]

/-- All lookups absent, all draws zero. -/
def exDefault : Externals := {}

/-- Draws rejecting the loan (income below 25000, credit below 650). -/
def exLoanFail : Externals := { family_income := 20000, credit_score := 500 }

/-- The scenario-4 profile: income 50000, credit 700. -/
def exScenario4 : Externals := { family_income := 50000, credit_score := 700 }

def appAlice : ApplicationStatus :=
  { application_id := "APP-001", student_name := "Alice", status := "new",
    documents := docsAll }

/-- Fresh application, complete documents, loan requested in context. -/
def stateNewLoan : AdmissionState :=
  { application := appAlice, current_agent := "document_checker", history := [],
    context := { loan_requested := some true } }

/-- Fresh application, complete documents, empty context. -/
def stateNewDefault : AdmissionState :=
  { application := appAlice, current_agent := "document_checker", history := [],
    context := {} }

def sLoanRejected : AdmissionState :=
  { application := { appAlice with status := "loan_rejected" },
    current_agent := "admission_officer", history := [], context := {} }

def sShortlisted : AdmissionState :=
  { application := { appAlice with status := "shortlisted" },
    current_agent := "student_counselor", history := [],
    context := { loan_requested := some false } }

def sShortlistedLoan : AdmissionState :=
  { application := { appAlice with status := "shortlisted" },
    current_agent := "student_counselor", history := [],
    context := { loan_requested := some true } }

def sAwaitingPayment : AdmissionState :=
  { application := { appAlice with status := "awaiting_payment" },
    current_agent := "admission_officer", history := [], context := {} }

def sLoanRequested : AdmissionState :=
  { application := { appAlice with status := "loan_requested" },
    current_agent := "loan_agent", history := [], context := {} }

def sAdmittedDocs : AdmissionState :=
  { application := { appAlice with status := "admitted" },
    current_agent := "admission_officer", history := [], context := {} }

/-- A terminal-status state (`documents_rejected`, no documents). -/
def sDocsRejected : AdmissionState :=
  { application := { application_id := "APP-002", student_name := "Bob",
                     status := "documents_rejected" },
    current_agent := "document_checker", history := [], context := {} }

/-- A state whose status is outside the 11-value enumeration. -/
def sBogus : AdmissionState :=
  { application := { application_id := "APP-003", student_name := "Eve",
                     status := "bogus" },
    current_agent := "document_checker", history := [], context := {} }

def sMissingPassport : AdmissionState :=
  { application := { application_id := "APP-004", student_name := "Carol",
                     status := "new", documents := docsMissingPassport },
    current_agent := "document_checker", history := [], context := {} }

def sAllOther : AdmissionState :=
  { application := { application_id := "APP-005", student_name := "Dan",
                     status := "new", documents := docsAllOther },
    current_agent := "document_checker", history := [], context := {} }

/-! ### Engine lemmas -/

/-- Every edge of the workflow graph moves strictly forward in the
pipeline order: the graph is acyclic. -/
theorem nextNode_rank_increases {n m : Node} {s : AdmissionState}
    (h : nextNode n s = some m) : nodeRank n < nodeRank m := by
  cases n with
  | document_checker =>
    simp only [nextNode] at h
    split at h
    · cases h; decide
    · cases h
  | shortlisting_agent =>
    simp only [nextNode] at h
    split at h
    · cases h; decide
    · cases h
  | student_counselor =>
    simp only [nextNode] at h
    split at h
    · cases h; decide
    · cases h; decide
  | loan_agent => cases h; decide
  | admission_officer => cases h

/-- A run starting at the admission officer performs exactly that one
invocation. -/
theorem runSteps_admission_officer (ext : Externals) (f : Nat) (s : AdmissionState) :
    runSteps ext (f + 1) .admission_officer s =
      some (AdmissionOfficer.process ext s, [.admission_officer]) := rfl

/-- A run starting at the loan agent performs exactly the loan agent and
then the admission officer. -/
theorem runSteps_loan_agent (ext : Externals) (f : Nat) (s : AdmissionState) :
    runSteps ext (f + 2) .loan_agent s =
      some (AdmissionOfficer.process ext (LoanAgent.process ext s),
        [.loan_agent, .admission_officer]) := rfl

/-- One unfolding of the driver loop. -/
theorem runSteps_succ (ext : Externals) (f : Nat) (n : Node) (s : AdmissionState) :
    runSteps ext (f + 1) n s =
      match nextNode n (runNode ext n s) with
      | none => some (runNode ext n s, [n])
      | some m => (runSteps ext f m (runNode ext n s)).map
          (fun r => (r.1, n :: r.2)) := rfl

/-- A run starting at the student counselor finishes within 3 handler
invocations. -/
theorem runSteps_student_counselor (ext : Externals) (f : Nat) (s : AdmissionState) :
    ∃ r t, runSteps ext (f + 3) .student_counselor s =
      some (r, .student_counselor :: t) ∧ t.length ≤ 2 := by
  rw [show f + 3 = (f + 2) + 1 by omega, runSteps_succ]
  by_cases hc :
      (runNode ext .student_counselor s).application.status = "loan_requested"
  · refine ⟨AdmissionOfficer.process ext
        (LoanAgent.process ext (runNode ext .student_counselor s)),
      [.loan_agent, .admission_officer], ?_, by decide⟩
    simp [nextNode, hc, runSteps_loan_agent]
  · refine ⟨AdmissionOfficer.process ext (runNode ext .student_counselor s),
      [.admission_officer], ?_, by decide⟩
    rw [show f + 2 = (f + 1) + 1 by omega]
    simp [nextNode, hc, runSteps_admission_officer]

/-- A run starting at the shortlisting agent finishes within 4 handler
invocations. -/
theorem runSteps_shortlisting (ext : Externals) (f : Nat) (s : AdmissionState) :
    ∃ r t, runSteps ext (f + 4) .shortlisting_agent s =
      some (r, .shortlisting_agent :: t) ∧ t.length ≤ 3 := by
  rw [show f + 4 = (f + 3) + 1 by omega, runSteps_succ]
  by_cases hc :
      (runNode ext .shortlisting_agent s).application.status = "shortlisted"
  · obtain ⟨r, t, hr, ht⟩ :=
      runSteps_student_counselor ext f (runNode ext .shortlisting_agent s)
    refine ⟨r, .student_counselor :: t, ?_, by simpa using ht⟩
    simp [nextNode, hc, hr]
  · exact ⟨runNode ext .shortlisting_agent s, [], by simp [nextNode, hc], by decide⟩

/-- A run starting at the document checker (the entry point) finishes
within 5 handler invocations. -/
theorem runSteps_document_checker (ext : Externals) (f : Nat) (s : AdmissionState) :
    ∃ r t, runSteps ext (f + 5) .document_checker s =
      some (r, .document_checker :: t) ∧ t.length ≤ 4 := by
  rw [show f + 5 = (f + 4) + 1 by omega, runSteps_succ]
  by_cases hc :
      (runNode ext .document_checker s).application.status = "documents_verified"
  · obtain ⟨r, t, hr, ht⟩ :=
      runSteps_shortlisting ext f (runNode ext .document_checker s)
    refine ⟨r, .shortlisting_agent :: t, ?_, by simpa using ht⟩
    simp [nextNode, hc, hr]
  · exact ⟨runNode ext .document_checker s, [], by simp [nextNode, hc], by decide⟩

/-- The workflow always returns within the recursion limit, after at
most 5 handler invocations (the graph is acyclic, so the LangGraph
recursion limit of 25 is never approached). -/
theorem invokeWorkflow_total (ext : Externals) (s : AdmissionState) :
    ∃ r t, invokeWorkflow ext s = some (r, t) ∧ t.length ≤ 5 := by
  obtain ⟨r, t, hr, ht⟩ := runSteps_document_checker ext 20 s
  exact ⟨r, .document_checker :: t, hr, by simpa using ht⟩

/-! ### History lemmas -/

/-- The Document Checker appends exactly one history entry on every
invocation (it has no status guard, so it never passes through). -/
theorem document_checker_history_length (ext : Externals) (s : AdmissionState) :
    (DocumentChecker.process ext s).history.length = s.history.length + 1 := by
  simp only [DocumentChecker.process]
  split
  · simp
  · split <;> simp

theorem shortlisting_history_le (ext : Externals) (s : AdmissionState) :
    s.history.length ≤ (ShortlistingAgent.process ext s).history.length := by
  simp only [ShortlistingAgent.process]
  split
  · exact le_rfl
  · split
    · simp
    · split <;> simp

theorem counselor_history_le (ext : Externals) (s : AdmissionState) :
    s.history.length ≤ (StudentCounselor.process ext s).history.length := by
  simp only [StudentCounselor.process]
  split
  · exact le_rfl
  · split <;> simp

theorem loan_agent_history_le (ext : Externals) (s : AdmissionState) :
    s.history.length ≤ (LoanAgent.process ext s).history.length := by
  simp only [LoanAgent.process]
  split
  · exact le_rfl
  · split <;> simp

theorem officer_history_le (ext : Externals) (s : AdmissionState) :
    s.history.length ≤ (AdmissionOfficer.process ext s).history.length := by
  simp only [AdmissionOfficer.process]
  repeat' split
  all_goals simp

theorem runNode_history_le (ext : Externals) (n : Node) (s : AdmissionState) :
    s.history.length ≤ (runNode ext n s).history.length := by
  cases n
  · exact (document_checker_history_length ext s) ▸ Nat.le_succ _
  · exact shortlisting_history_le ext s
  · exact counselor_history_le ext s
  · exact loan_agent_history_le ext s
  · exact officer_history_le ext s

/-- The history never shrinks across a driver run. -/
theorem runSteps_history_le (ext : Externals) :
    ∀ (f : Nat) (n : Node) (s : AdmissionState) (r : AdmissionState × List Node),
      runSteps ext f n s = some r → s.history.length ≤ r.1.history.length := by
  intro f
  induction f with
  | zero => intro n s r h; simp [runSteps] at h
  | succ f ih =>
    intro n s r h
    rw [runSteps_succ] at h
    revert h
    cases hn : nextNode n (runNode ext n s) with
    | none =>
      intro h
      cases h
      exact runNode_history_le ext n s
    | some m =>
      intro h
      obtain ⟨r', hr', hmap⟩ := Option.map_eq_some'.mp h
      calc s.history.length ≤ (runNode ext n s).history.length :=
            runNode_history_le ext n s
        _ ≤ r'.1.history.length := ih m (runNode ext n s) r' hr'
        _ = r.1.history.length := by rw [← hmap]

/-- Any run that starts at the entry point (as every workflow invocation
does) strictly grows the history: the Document Checker has no guard and
always appends an entry, and no later handler removes entries. -/
theorem runSteps_dc_history_lt (ext : Externals) (f : Nat) (s : AdmissionState)
    (r : AdmissionState × List Node)
    (h : runSteps ext (f + 1) .document_checker s = some r) :
    s.history.length < r.1.history.length := by
  rw [runSteps_succ] at h
  revert h
  cases hn : nextNode .document_checker (runNode ext .document_checker s) with
  | none =>
    intro h
    cases h
    have h1 := document_checker_history_length ext s
    show s.history.length < (DocumentChecker.process ext s).history.length
    omega
  | some m =>
    intro h
    obtain ⟨r', hr', hmap⟩ := Option.map_eq_some'.mp h
    have h1 := document_checker_history_length ext s
    have h2 := runSteps_history_le ext f m (runNode ext .document_checker s) r' hr'
    have h3 : r'.1 = r.1 := by rw [← hmap]
    rw [← h3]
    calc s.history.length < (DocumentChecker.process ext s).history.length := by omega
      _ ≤ r'.1.history.length := h2

/-! ### Pass-through (guard) lemmas -/

theorem shortlisting_pass_through (ext : Externals) (s : AdmissionState)
    (h : s.application.status ≠ "documents_verified") :
    ShortlistingAgent.process ext s = s := by
  simp only [ShortlistingAgent.process]
  rw [if_pos h]

theorem counselor_pass_through (ext : Externals) (s : AdmissionState)
    (h : s.application.status ≠ "shortlisted") :
    StudentCounselor.process ext s = s := by
  simp only [StudentCounselor.process]
  rw [if_pos h]

theorem loan_agent_pass_through (ext : Externals) (s : AdmissionState)
    (h : s.application.status ≠ "loan_requested") :
    LoanAgent.process ext s = s := by
  simp only [LoanAgent.process]
  rw [if_pos h]

theorem officer_pass_through (ext : Externals) (s : AdmissionState)
    (h1 : s.application.status ≠ "awaiting_payment")
    (h2 : s.application.status ≠ "payment_completed")
    (h3 : s.application.status ≠ "loan_approved")
    (h4 : s.application.status ≠ "loan_rejected") :
    AdmissionOfficer.process ext s = s := by
  simp only [AdmissionOfficer.process]
  rw [if_neg h1,
    if_neg (show ¬(s.application.status = "payment_completed" ∨
        s.application.status = "loan_approved") from fun hor => hor.elim h2 h3),
    if_neg h4]

/-! ### Claims -/

/-- C1 (amended): after the Loan Agent sets `loan_rejected`, the
Admission Officer sends exactly one payment-reminder communication and
reverts the status to `awaiting_payment`; but the workflow does not
route the application to the Admission Officer again: the admission
officer node's only outgoing edge is END, and every edge of the workflow
graph moves strictly forward in the pipeline order, so the graph has no
cycle at all (re-entry after a loan rejection is external to the
workflow). -/
theorem C1_theorem :
    (∀ (ext : Externals) (s : AdmissionState),
      s.application.status = "loan_rejected" →
      (AdmissionOfficer.process ext s).application.status = "awaiting_payment" ∧
      (AdmissionOfficer.process ext s).application.communications =
        s.application.communications ++
          [{ type := "letter", subject := "Payment Reminder",
             content := payment_reminder_text s.application.student_name,
             timestamp := "2023-05-25T14:00:00Z" }] ∧
      (AdmissionOfficer.process ext s).history = s.history ++
        [{ agent := AdmissionOfficer.name, action := "payment_reminder_sent",
           notes := some "Payment reminder sent after loan rejection" }]) ∧
    (∀ s : AdmissionState, nextNode .admission_officer s = none) ∧
    (∀ (n m : Node) (s : AdmissionState),
      nextNode n s = some m → nodeRank n < nodeRank m) := by
  refine ⟨?_, fun _ => rfl, fun n m s h => nextNode_rank_increases h⟩
  intro ext s h
  have h1 : s.application.status ≠ "awaiting_payment" := by simp [h]
  have h2 : s.application.status ≠ "payment_completed" := by simp [h]
  have h3 : s.application.status ≠ "loan_approved" := by simp [h]
  simp only [AdmissionOfficer.process]
  rw [if_neg h1,
    if_neg (show ¬(s.application.status = "payment_completed" ∨
        s.application.status = "loan_approved") from fun hor => hor.elim h2 h3),
    if_pos h]
  exact ⟨rfl, rfl, rfl⟩

/-- C1 witness: the reminder branch at a concrete loan-rejected state. -/
theorem C1_witness :
    (AdmissionOfficer.process exDefault sLoanRejected).application.status =
      "awaiting_payment" :=
  (C1_theorem.1 exDefault sLoanRejected rfl).1

/-- C1 counterexample: at the concrete loan-rejected state the Admission
Officer reverts the status to `awaiting_payment`, but the workflow then
terminates (the admission officer node's edge is END), and a full
workflow run through a loan rejection invokes the Admission Officer
exactly once — the claimed `loan_rejected` → `awaiting_payment` →
Admission Officer cycle does not exist in the workflow graph. -/
theorem C1_counterexample :
    nextNode .admission_officer (AdmissionOfficer.process exDefault sLoanRejected) =
      none ∧
    (AdmissionOfficer.process exDefault sLoanRejected).application.status =
      "awaiting_payment" ∧
    (invokeWorkflow exLoanFail stateNewLoan).map
      (fun r => (r.1.application.status, r.2)) =
      some ("awaiting_payment",
        [.document_checker, .shortlisting_agent, .student_counselor, .loan_agent,
         .admission_officer]) := by decide

/-- C2 (amended): the engine is bounded — every invocation of the
workflow returns after at most 5 handler invocations, because the
workflow graph is acyclic, and `process_application` always returns an
ordinary result: the repository configures no transition cap of its own,
and the LangGraph recursion-limit failure (`GraphRecursionError`,
limit 25) is unreachable. -/
theorem C2_theorem :
    (∀ (ext : Externals) (s : AdmissionState),
      ∃ r t, invokeWorkflow ext s = some (r, t) ∧ t.length ≤ 5) ∧
    (∀ (ext : Externals) (d : ApplicationData),
      ∃ r, process_application ext d = Except.ok r) := by
  refine ⟨invokeWorkflow_total, ?_⟩
  intro ext d
  obtain ⟨r, t, hr, _⟩ := invokeWorkflow_total ext
    { application :=
        { application_id := d.application_id, student_name := d.student_name,
          status := "new", documents := d.documents },
      current_agent := "document_checker", history := [], context := d.context }
  refine ⟨(r, t), ?_⟩
  simp [process_application, mkApplicationStatus, validStatuses, hr]

/-- C2 counterexample: a run through a loan rejection returns at the
non-terminal status `awaiting_payment` after 5 transitions — the engine
returns neither by reaching a terminal status nor by any transition cap,
and no stuck-workflow failure surfaces. -/
theorem C2_counterexample :
    (invokeWorkflow exLoanFail stateNewLoan).map
      (fun r => (r.1.application.status, r.2.length)) =
      some ("awaiting_payment", 5) ∧
    "awaiting_payment" ∉ terminalStatuses ∧ (5 : Nat) < 20 := by decide

/-- C3 (amended): invoking the workflow again on a state whose status is
terminal (`documents_rejected`, `rejected`, `admitted`) is NOT a no-op:
the entry point unconditionally invokes the Document Checker, which has
no status guard and appends a history entry on every invocation, so the
resulting state's history is strictly longer than before the call. -/
theorem C3_theorem :
    ∀ (ext : Externals) (s : AdmissionState),
      s.application.status ∈ terminalStatuses →
      ∃ r t, invokeWorkflow ext s = some (r, t) ∧
        s.history.length < r.history.length := by
  intro ext s _h
  obtain ⟨r, t, hr, _⟩ := invokeWorkflow_total ext s
  exact ⟨r, t, hr, runSteps_dc_history_lt ext 24 s (r, t) hr⟩

/-- C3 witness: the non-idempotence at a concrete `documents_rejected`
state. -/
theorem C3_witness :
    ∃ r t, invokeWorkflow exDefault sDocsRejected = some (r, t) ∧
      sDocsRejected.history.length < r.history.length :=
  C3_theorem exDefault sDocsRejected (by decide)

/-- C3 counterexample: re-running the workflow on a concrete
`documents_rejected` state appends a history entry and overwrites the
verification notes — the state is not returned unchanged. -/
theorem C3_counterexample :
    (invokeWorkflow exDefault sDocsRejected).map
      (fun r => (r.1.history.length, r.1.application.verification_notes)) =
      some (1, some ("Missing documents: application_form, academic_transcripts, id_passport, recommendation_letters, statement_of_purpose")) ∧
    sDocsRejected.history.length = 0 ∧
    sDocsRejected.application.verification_notes = none := by decide

/-- C4 (amended): a status outside the 11-value enumeration cannot be
constructed at all — pydantic validation rejects it with an error
(fail-loud, not silent termination); and when the workflow is invoked on
a hand-built state with the unknown status "bogus", it does not
terminate with zero handler invocations: the entry point invokes the
Document Checker, which processes the application regardless of its
status (here rejecting it for missing documents). -/
theorem C4_theorem :
    (∀ (application_id student_name status : String)
      (documents : List (String × String)),
      status ∉ validStatuses →
      mkApplicationStatus application_id student_name status documents =
        .error "ValidationError: status") ∧
    (invokeWorkflow exDefault sBogus).map
      (fun r => (r.1.application.status, r.2)) =
      some ("documents_rejected", [.document_checker]) := by
  constructor
  · intro i n st docs h
    simp [mkApplicationStatus, h]
  · decide

/-- C4 witness: the validation rejection at the concrete status
"bogus". -/
theorem C4_witness :
    mkApplicationStatus "APP-003" "Eve" "bogus" [] =
      .error "ValidationError: status" :=
  C4_theorem.1 "APP-003" "Eve" "bogus" [] (by decide)

/-- C4 counterexample: fed a state with status "bogus", the workflow
invokes one stage handler (the Document Checker), which changes the
state — not zero handler invocations with the state unchanged. -/
theorem C4_counterexample :
    (invokeWorkflow exDefault sBogus).map (fun r => r.2.length) = some 1 ∧
    (invokeWorkflow exDefault sBogus).map (fun r => r.1.application.status) =
      some "documents_rejected" ∧
    sBogus.application.status = "bogus" := by decide

/-- C5 (amended): on a `shortlisted` state the Student Counselor appends
exactly TWO communications in each branch — the shortlist notification
(always) followed by the branch-specific one — and exactly one history
entry: with `loan_requested` true the second communication is the
loan-information message and the status becomes `loan_requested`; with
`loan_requested` false (or absent) the second is the payment-instruction
message and the status becomes `awaiting_payment`. -/
theorem C5_theorem :
    ∀ (ext : Externals) (s : AdmissionState),
      s.application.status = "shortlisted" →
      (s.context.loan_requested.getD false = true →
        (StudentCounselor.process ext s).application.communications =
          s.application.communications ++
            [{ type := "notification", subject := "Application Shortlisted",
               content := generate_shortlist_notification ext
                 s.application.student_name
                 (s.context.program.getD "Computer Science"),
               timestamp := "2023-05-15T14:30:00Z" },
             { type := "information", subject := "Student Loan Information",
               content := handle_loan_information ext,
               timestamp := "2023-05-15T14:35:00Z" }] ∧
        (StudentCounselor.process ext s).application.status = "loan_requested" ∧
        (StudentCounselor.process ext s).history = s.history ++
          [{ agent := StudentCounselor.name, action := "loan_information_sent",
             notes := some "Student loan information provided" }]) ∧
      (s.context.loan_requested.getD false = false →
        (StudentCounselor.process ext s).application.communications =
          s.application.communications ++
            [{ type := "notification", subject := "Application Shortlisted",
               content := generate_shortlist_notification ext
                 s.application.student_name
                 (s.context.program.getD "Computer Science"),
               timestamp := "2023-05-15T14:30:00Z" },
             { type := "instruction", subject := "Payment Instructions",
               content := handle_payment_instructions ext
                 s.application.student_name
                 (s.context.program.getD "Computer Science"),
               timestamp := "2023-05-15T14:32:00Z" }] ∧
        (StudentCounselor.process ext s).application.status =
          "awaiting_payment" ∧
        (StudentCounselor.process ext s).history = s.history ++
          [{ agent := StudentCounselor.name,
             action := "payment_instructions_sent",
             notes := some "Payment instructions sent to student" }]) := by
  intro ext s h
  refine ⟨fun hl => ?_, fun hl => ?_⟩ <;>
    simp [StudentCounselor.process, h, hl]

/-- C5 witness: both counselor branches at concrete shortlisted
states. -/
theorem C5_witness :
    (StudentCounselor.process exDefault sShortlisted).application.status =
      "awaiting_payment" ∧
    (StudentCounselor.process exDefault sShortlistedLoan).application.status =
      "loan_requested" :=
  ⟨((C5_theorem exDefault sShortlisted rfl).2 rfl).2.1,
   ((C5_theorem exDefault sShortlistedLoan rfl).1 rfl).2.1⟩

/-- C5 counterexample: on a concrete shortlisted state with
`loan_requested` false, the Student Counselor appends two
communications, not exactly one. -/
theorem C5_counterexample :
    (StudentCounselor.process exDefault
      sShortlisted).application.communications.length = 2 ∧
    sShortlisted.application.communications.length = 0 ∧
    (StudentCounselor.process exDefault sShortlisted).application.status =
      "awaiting_payment" := by decide

/-- C6: on an `awaiting_payment` state a single Admission Officer
invocation cascades: it records the (assumed) payment — writing
`payment_details` and the payment-received history entry, moving through
`payment_completed` — and then, in the same invocation, finalizes the
admission, appending the admission letter and the fee slip and ending
with status `admitted`. -/
theorem C6_theorem :
    ∀ (ext : Externals) (s : AdmissionState),
      s.application.status = "awaiting_payment" →
      (AdmissionOfficer.process ext s).application.status = "admitted" ∧
      (AdmissionOfficer.process ext s).application.payment_details =
        some demoPaymentDetails ∧
      (AdmissionOfficer.process ext s).application.communications =
        s.application.communications ++
          [{ type := "letter", subject := "Admission Letter",
             content := generate_admission_letter ext
               s.application.student_name
               (s.context.program.getD "Computer Science"),
             timestamp := "2023-05-25T09:00:00Z" },
           { type := "document", subject := "Fee Slip",
             content := generate_fee_slip ext s.application.student_name
               (s.context.program.getD "Computer Science"),
             timestamp := "2023-05-25T09:05:00Z" }] ∧
      (AdmissionOfficer.process ext s).history = s.history ++
        [{ agent := AdmissionOfficer.name, action := "payment_received",
           amount := some 12000,
           notes := some "Payment received and processed" },
         { agent := AdmissionOfficer.name, action := "admission_finalized",
           notes := some "Admission letter and fee slip generated" }] := by
  intro ext s h
  simp [AdmissionOfficer.process, finalize_admission, demoPaymentDetails, h]

/-- C6 witness: the cascade at a concrete `awaiting_payment` state. -/
theorem C6_witness :
    (AdmissionOfficer.process exDefault sAwaitingPayment).application.status =
      "admitted" ∧
    (AdmissionOfficer.process exDefault
      sAwaitingPayment).application.payment_details = some demoPaymentDetails :=
  ⟨(C6_theorem exDefault sAwaitingPayment rfl).1,
   (C6_theorem exDefault sAwaitingPayment rfl).2.1⟩

/-- C7: Document Checker outcomes — any required document type missing
gives `documents_rejected` with the notes listing exactly the missing
types (every missing type appears); with all five present, the extracted
credential score (always 3.5, from the simulated transcript) at or above
the threshold (default 3.0) gives `documents_verified` and stores the
score as `eligibility_score`; below the threshold gives
`documents_rejected`. -/
theorem C7_theorem :
    ∀ (ext : Externals) (s : AdmissionState),
      ((check_document_completeness s.application.documents).all
          (fun p => p.2) = false →
        (DocumentChecker.process ext s).application.status =
          "documents_rejected" ∧
        (DocumentChecker.process ext s).application.verification_notes =
          some ("Missing documents: " ++ String.intercalate ", "
            (((check_document_completeness s.application.documents).filter
              (fun p => !p.2)).map (fun p => p.1)))) ∧
      ((check_document_completeness s.application.documents).all
          (fun p => p.2) = true →
        ((validate_academic_credentials transcript_text
            ext.eligibility_info).is_valid = true →
          (DocumentChecker.process ext s).application.status =
            "documents_verified" ∧
          (DocumentChecker.process ext s).application.eligibility_score =
            (validate_academic_credentials transcript_text
              ext.eligibility_info).gpa) ∧
        ((validate_academic_credentials transcript_text
            ext.eligibility_info).is_valid = false →
          (DocumentChecker.process ext s).application.status =
            "documents_rejected")) ∧
      (validate_academic_credentials transcript_text
          ext.eligibility_info).gpa = some (3.5 : Frac) ∧
      (ext.eligibility_info = none →
        (validate_academic_credentials transcript_text
          ext.eligibility_info).min_gpa_required = 3) ∧
      ((validate_academic_credentials transcript_text
          ext.eligibility_info).is_valid = true ↔
        (validate_academic_credentials transcript_text
          ext.eligibility_info).min_gpa_required ≤ (3.5 : Frac)) ∧
      (∀ d, d ∈ required_documents →
        s.application.documents.any (fun kv => kv.1 == d) = false →
        d ∈ ((check_document_completeness s.application.documents).filter
          (fun p => !p.2)).map (fun p => p.1)) := by
  intro ext s
  have hgpa : (validate_academic_credentials transcript_text
      ext.eligibility_info).gpa =
      extractNumberAfter true "GPA:" transcript_text := rfl
  have hgpa35 : extractNumberAfter true "GPA:" transcript_text =
      some (3.5 : Frac) := by decide
  refine ⟨fun hc => ?_, fun hc => ⟨fun hv => ?_, fun hv => ?_⟩, ?_, fun he => ?_,
    ?_, fun d hd hmiss => ?_⟩
  · simp [DocumentChecker.process, hc]
  · simp [DocumentChecker.process, hc, hv]
  · simp [DocumentChecker.process, hc, hv]
  · rw [hgpa, hgpa35]
  · simp [validate_academic_credentials, he]
  · simp only [validate_academic_credentials, hgpa35.symm]
    rw [show extractNumberAfter true "GPA:" transcript_text =
      some (3.5 : Frac) from hgpa35]
    simp
  · refine List.mem_map.mpr ⟨(d, false), List.mem_filter.mpr
      ⟨List.mem_map.mpr ⟨d, hd, by rw [hmiss]⟩, rfl⟩, rfl⟩

/-- C7 witness: the missing-document branch at a state missing
`id_passport`, and the verified branch at a complete application with
the default threshold. -/
theorem C7_witness :
    (DocumentChecker.process exDefault sMissingPassport).application.status =
      "documents_rejected" ∧
    (DocumentChecker.process exDefault stateNewDefault).application.status =
      "documents_verified" ∧
    (DocumentChecker.process exDefault
        stateNewDefault).application.eligibility_score =
      (validate_academic_credentials transcript_text
        exDefault.eligibility_info).gpa :=
  ⟨((C7_theorem exDefault sMissingPassport).1 (by decide)).1,
   (((C7_theorem exDefault stateNewDefault).2.1 (by decide)).1 (by decide)).1,
   (((C7_theorem exDefault stateNewDefault).2.1 (by decide)).1 (by decide)).2⟩

/-- C8: loan evaluation — the policy thresholds are always the defaults
25000 / 650 (the lookup never overrides them); meeting both gives
`loan_approved` with the amount tiered by income band (full / 75% / 50%
/ 25% of the maximum amount, with Python int truncation); failing either
gives `loan_rejected` with each failed criterion in the reasons list. -/
theorem C8_theorem :
    ∀ (ext : Externals) (s : AdmissionState),
      s.application.status = "loan_requested" →
      ((get_loan_policies ext).minimum_income_requirement = 25000 ∧
       (get_loan_policies ext).credit_score_requirement = 650) ∧
      ((get_loan_policies ext).minimum_income_requirement ≤ ext.family_income ∧
          (get_loan_policies ext).credit_score_requirement ≤ ext.credit_score →
        (LoanAgent.process ext s).application.status = "loan_approved" ∧
        (LoanAgent.process ext s).application.loan_details =
          some (calculate_eligibility ext) ∧
        (calculate_eligibility ext).eligible = true ∧
        (ext.family_income < 40000 →
          (calculate_eligibility ext).loan_amount =
            (get_loan_policies ext).max_loan_amount) ∧
        (40000 ≤ ext.family_income → ext.family_income < 60000 →
          (calculate_eligibility ext).loan_amount =
            (((get_loan_policies ext).max_loan_amount : Frac) * 0.75).floor) ∧
        (60000 ≤ ext.family_income → ext.family_income < 80000 →
          (calculate_eligibility ext).loan_amount =
            (((get_loan_policies ext).max_loan_amount : Frac) * 0.5).floor) ∧
        (80000 ≤ ext.family_income →
          (calculate_eligibility ext).loan_amount =
            (((get_loan_policies ext).max_loan_amount : Frac) * 0.25).floor)) ∧
      (¬((get_loan_policies ext).minimum_income_requirement ≤ ext.family_income ∧
          (get_loan_policies ext).credit_score_requirement ≤ ext.credit_score) →
        (LoanAgent.process ext s).application.status = "loan_rejected" ∧
        (LoanAgent.process ext s).application.loan_details =
          some (calculate_eligibility ext) ∧
        (calculate_eligibility ext).eligible = false ∧
        (ext.family_income < (get_loan_policies ext).minimum_income_requirement →
          some "Insufficient family income" ∈ (calculate_eligibility ext).reasons) ∧
        (ext.credit_score < (get_loan_policies ext).credit_score_requirement →
          some "Insufficient credit score" ∈ (calculate_eligibility ext).reasons)) := by
  intro ext s h
  refine ⟨?_, fun hel => ?_, fun hnel => ?_⟩
  · cases hpol : ext.loan_policy_info <;> simp [get_loan_policies, hpol]
  · have helig : (calculate_eligibility ext).eligible = true := by
      simp [calculate_eligibility, hel]
    refine ⟨?_, ?_, helig, fun h40 => ?_, fun h40 h60 => ?_,
      fun h60 h80 => ?_, fun h80 => ?_⟩
    · simp [LoanAgent.process, h, helig]
    · simp [LoanAgent.process, h, helig]
    · simp only [calculate_eligibility]
      rw [if_pos hel, if_pos h40]
    · simp only [calculate_eligibility]
      rw [if_pos hel, if_neg (by omega), if_pos h60]
    · simp only [calculate_eligibility]
      rw [if_pos hel, if_neg (by omega), if_neg (by omega), if_pos h80]
    · simp only [calculate_eligibility]
      rw [if_pos hel, if_neg (by omega), if_neg (by omega), if_neg (by omega)]
  · have helig : (calculate_eligibility ext).eligible = false := by
      simp [calculate_eligibility, hnel]
    refine ⟨?_, ?_, helig, fun hinc => ?_, fun hcred => ?_⟩
    · simp [LoanAgent.process, h, helig]
    · simp [LoanAgent.process, h, helig]
    · simp [calculate_eligibility, hnel, hinc]
    · simp [calculate_eligibility, hnel, hcred]

/-- C8 witness: the scenario-4 profile (income 50000, credit 700,
default thresholds) — approved, with the 40k–60k band amount, which
evaluates to 15000 = 75% of the default 20000 maximum. -/
theorem C8_witness :
    (LoanAgent.process exScenario4 sLoanRequested).application.status =
      "loan_approved" ∧
    (calculate_eligibility exScenario4).loan_amount =
      (((get_loan_policies exScenario4).max_loan_amount : Frac) * 0.75).floor ∧
    (calculate_eligibility exScenario4).loan_amount = 15000 := by
  have h := C8_theorem exScenario4 sLoanRequested rfl
  have he := h.2.1 (by decide)
  exact ⟨he.1, he.2.2.2.2.1 (by decide) (by decide), by decide⟩

/-- C9 (amended): four of the five stage handlers — Shortlisting Agent,
Student Counselor, Loan Agent, Admission Officer — are no-op
pass-throughs on any state whose status is outside their precondition
set (state returned unchanged, no error); the Document Checker is the
exception: it has no status precondition and appends a history entry on
every invocation, whatever the status. -/
theorem C9_theorem :
    (∀ (ext : Externals) (s : AdmissionState),
      s.application.status ≠ "documents_verified" →
      ShortlistingAgent.process ext s = s) ∧
    (∀ (ext : Externals) (s : AdmissionState),
      s.application.status ≠ "shortlisted" →
      StudentCounselor.process ext s = s) ∧
    (∀ (ext : Externals) (s : AdmissionState),
      s.application.status ≠ "loan_requested" →
      LoanAgent.process ext s = s) ∧
    (∀ (ext : Externals) (s : AdmissionState),
      s.application.status ∉
        ["awaiting_payment", "payment_completed", "loan_approved",
         "loan_rejected"] →
      AdmissionOfficer.process ext s = s) ∧
    (∀ (ext : Externals) (s : AdmissionState),
      (DocumentChecker.process ext s).history.length =
        s.history.length + 1) := by
  refine ⟨shortlisting_pass_through, counselor_pass_through,
    loan_agent_pass_through, ?_, document_checker_history_length⟩
  intro ext s h
  simp only [List.mem_cons, List.not_mem_nil, or_false, not_or] at h
  exact officer_pass_through ext s h.1 h.2.1 h.2.2.1 h.2.2.2

/-- C9 witness: the four pass-throughs at concrete out-of-precondition
states. -/
theorem C9_witness :
    ShortlistingAgent.process exDefault sLoanRejected = sLoanRejected ∧
    StudentCounselor.process exDefault sLoanRejected = sLoanRejected ∧
    LoanAgent.process exDefault sLoanRejected = sLoanRejected ∧
    AdmissionOfficer.process exDefault sDocsRejected = sDocsRejected :=
  ⟨C9_theorem.1 exDefault sLoanRejected (by decide),
   C9_theorem.2.1 exDefault sLoanRejected (by decide),
   C9_theorem.2.2.1 exDefault sLoanRejected (by decide),
   C9_theorem.2.2.2.1 exDefault sDocsRejected (by decide)⟩

/-- C9 counterexample: the Document Checker is not a no-op outside
status `new` — on a concrete `admitted` state with complete documents it
re-verifies, changing the status to `documents_verified` and appending a
history entry. -/
theorem C9_counterexample :
    (DocumentChecker.process exDefault sAdmittedDocs).application.status =
      "documents_verified" ∧
    sAdmittedDocs.application.status = "admitted" ∧
    (DocumentChecker.process exDefault sAdmittedDocs).history.length = 1 ∧
    sAdmittedDocs.history.length = 0 := by decide

/-- C10: the Document Checker outcome depends only on which document
keys are present, never on their contents: any two states with all five
required keys get the same status and the same verification notes
(whatever the strings the keys map to), and whenever the credential
check passes — in particular with the default threshold — the
`eligibility_score` is the constant 3.5 extracted from the hardcoded
simulated transcript, not from any submitted document. -/
theorem C10_theorem :
    ∀ (ext : Externals) (s1 s2 : AdmissionState),
      (check_document_completeness s1.application.documents).all
        (fun p => p.2) = true →
      (check_document_completeness s2.application.documents).all
        (fun p => p.2) = true →
      ((DocumentChecker.process ext s1).application.status =
        (DocumentChecker.process ext s2).application.status ∧
       (DocumentChecker.process ext s1).application.verification_notes =
        (DocumentChecker.process ext s2).application.verification_notes) ∧
      ((validate_academic_credentials transcript_text
          ext.eligibility_info).is_valid = true →
        (DocumentChecker.process ext s1).application.eligibility_score =
          some (3.5 : Frac)) ∧
      (ext.eligibility_info = none →
        (DocumentChecker.process ext s1).application.status =
          "documents_verified" ∧
        (DocumentChecker.process ext s1).application.eligibility_score =
          some (3.5 : Frac)) := by
  intro ext s1 s2 h1 h2
  have hgpa : (validate_academic_credentials transcript_text
      ext.eligibility_info).gpa = some (3.5 : Frac) := by
    show extractNumberAfter true "GPA:" transcript_text = some (3.5 : Frac)
    decide
  refine ⟨?_, fun hv => ?_, fun he => ?_⟩
  · cases hv : (validate_academic_credentials transcript_text
        ext.eligibility_info).is_valid <;>
      simp [DocumentChecker.process, h1, h2, hv]
  · simp [DocumentChecker.process, h1, hv, hgpa]
  · have hv : (validate_academic_credentials transcript_text
        ext.eligibility_info).is_valid = true := by
      rw [he]; decide
    exact ⟨by simp [DocumentChecker.process, h1, hv],
      by simp [DocumentChecker.process, h1, hv, hgpa]⟩

/-- C10 witness: two complete applications whose document contents
differ everywhere get the same outcome, and the stored score is the
constant 3.5. -/
theorem C10_witness :
    ((DocumentChecker.process exDefault stateNewDefault).application.status =
      (DocumentChecker.process exDefault sAllOther).application.status) ∧
    (DocumentChecker.process exDefault
        stateNewDefault).application.eligibility_score = some (3.5 : Frac) :=
  ⟨(C10_theorem exDefault stateNewDefault sAllOther (by decide)
      (by decide)).1.1,
   ((C10_theorem exDefault stateNewDefault sAllOther (by decide)
      (by decide)).2.2 rfl).2⟩
